import Mathlib

/-!
Verification development for the Drawpile dedicated-server front end
(src/src/server/multiserver.cpp).

The C++ class MultiServer is embedded shallowly:

* the mutable fields of the object (m_state, m_autoStop, m_server,
  m_sslCertFile, m_sslKeyFile) become a Lean structure `MultiServer`;
* the external SessionServer is visible to this code only through its
  counters totalUsers() and sessionCount(); a `Registry` value is the
  snapshot of those counters at the moment an operation runs (the model
  is single threaded, as the surrounding Qt event loop is);
* side effects (logging, closing the listening socket, stopAll, addClient,
  disconnectKick, initsys::notifyStatus, the serverStopped signal, the
  deletion of the listener) become an explicit `Effect` list returned by
  each operation;
* results of external calls the code branches on (SslServer::isValidCert,
  QTcpServer::listen, setSocketDescriptor, ServerConfig::isAddressBanned,
  QFileInfo::isDir) are Boolean inputs of the embedded functions.
-/

namespace Drawpile

/-- The four values of the state enum of MultiServer. -/
inductive ServerState where
  | NOT_STARTED
  | RUNNING
  | STOPPING
  | STOPPED
deriving DecidableEq, Repr

/-- Snapshot of the external SessionServer counters. -/
structure Registry where
  totalUsers : Nat
  sessionCount : Nat
deriving DecidableEq, Repr

/-- Observable side effects of MultiServer operations. -/
inductive Effect where
  | logInfo (msg : String)
  | logError (msg : String)
  | serverClose
  | stopAll
  | addClient
  | disconnectKick (reason : String)
  | notifyStatus (msg : String)
  | serverStopped
  | deleteServer
  | setRecordingFile (path : String)
deriving DecidableEq, Repr

/-- The mutable state of the MultiServer object. `m_server` is `none` when
the C++ pointer is null, `some true` for an SslServer, `some false` for a
plain QTcpServer. -/
structure MultiServer where
  m_state : ServerState
  m_autoStop : Bool
  m_server : Option Bool
  m_sslCertFile : String
  m_sslKeyFile : String
deriving DecidableEq, Repr

/-- The object as the constructor leaves it (m_state = NOT_STARTED,
m_autoStop = false, m_server = nullptr); the ssl file names are whatever
setSslCertFile-style setters put there before start is called. -/
def initServer (autoStop : Bool) (certFile keyFile : String) : MultiServer :=
  { m_state := ServerState.NOT_STARTED
    m_autoStop := autoStop
    m_server := none
    m_sslCertFile := certFile
    m_sslKeyFile := keyFile }

/-- MultiServer::createServer. Returns the updated object and the C++
return value. `isValidCert` is the result of SslServer::isValidCert(). -/
def createServer (s : MultiServer) (isValidCert : Bool) : MultiServer × Bool :=
  if s.m_sslCertFile ≠ "" ∧ s.m_sslKeyFile ≠ "" then
    if isValidCert then ({ s with m_server := some true }, true)
    else (s, false)
  else
    ({ s with m_server := some false }, true)

/-- MultiServer::start. `listenOk` is the result of QTcpServer::listen and
`errString` the listener error string logged on bind failure. Returns
(object, effects, C++ return value). The Q_ASSERT(m_state == NOT_STARTED)
is a precondition of the callers, not part of the function body. -/
def start (s0 : MultiServer) (isValidCert listenOk : Bool) (errString : String)
    (port : Nat) (addr : String) : MultiServer × List Effect × Bool :=
  let s1 := { s0 with m_state := ServerState.RUNNING }
  let r := createServer s1 isValidCert
  if r.2 = false then (r.1, [], false)
  else if listenOk = false then
    ({ r.1 with m_server := none, m_state := ServerState.NOT_STARTED },
     [Effect.logError errString, Effect.deleteServer], false)
  else
    (r.1,
     [Effect.logInfo ("Started listening on port " ++ toString port ++ " at address " ++ addr)],
     true)

/-- MultiServer::startFd. `fdOk` is the result of setSocketDescriptor. -/
def startFd (s0 : MultiServer) (isValidCert fdOk : Bool) : MultiServer × List Effect × Bool :=
  let s1 := { s0 with m_state := ServerState.RUNNING }
  let r := createServer s1 isValidCert
  if r.2 = false then (r.1, [], false)
  else if fdOk = false then
    ({ r.1 with m_server := none, m_state := ServerState.NOT_STARTED },
     [Effect.logError "Couldn\x27t set server socket descriptor!", Effect.deleteServer], false)
  else
    (r.1, [Effect.logInfo "Started listening on passed socket"], true)

/-- The text produced by MultiServer::printStatusUpdate for initsys::notifyStatus. -/
def statusMessage (reg : Registry) : String :=
  toString reg.totalUsers ++ " users and " ++ toString reg.sessionCount ++ " sessions"

/-- MultiServer::printStatusUpdate as an effect. -/
def printStatusUpdate (reg : Registry) : Effect :=
  Effect.notifyStatus (statusMessage reg)

/-- MultiServer::stop. The registry snapshot is read for the log message
and for the totalUsers() == 0 test; SessionServer::stopAll only requests
asynchronous disconnections (section 5 of the spec), so the counters do
not change during this synchronous call. -/
def stop (s : MultiServer) (reg : Registry) : MultiServer × List Effect :=
  let r1 :=
    if s.m_state = ServerState.RUNNING then
      ({ s with m_state := ServerState.STOPPING },
       [Effect.logInfo ("Stopping server and kicking out " ++ toString reg.totalUsers ++ " users..."),
        Effect.serverClose, Effect.stopAll])
    else (s, ([] : List Effect))
  if r1.1.m_state = ServerState.STOPPING then
    if reg.totalUsers = 0 then
      ({ r1.1 with m_state := ServerState.STOPPED },
       r1.2 ++ [Effect.logInfo "Server stopped.", Effect.serverStopped])
    else r1
  else r1

/-- MultiServer::tryAutoStop. -/
def tryAutoStop (s : MultiServer) (reg : Registry) : MultiServer × List Effect :=
  if s.m_state = ServerState.RUNNING ∧ s.m_autoStop = true
      ∧ reg.sessionCount = 0 ∧ reg.totalUsers = 0 then
    let r := stop s reg
    (r.1, Effect.logInfo "Autostopping due to lack of sessions" :: r.2)
  else (s, [])

/-- MultiServer::newClient. `banned` is the result of
ServerConfig::isAddressBanned(socket->peerAddress()), `peer` the textual
peer address used in the log lines. -/
def newClient (s : MultiServer) (reg : Registry) (banned : Bool) (peer : String) :
    MultiServer × List Effect :=
  let e0 := [Effect.logInfo ("Accepted new client from address " ++ peer)]
  if banned then
    (s, e0 ++ [Effect.logInfo ("Kicking banned client from address " ++ peer ++ " straight away"),
               Effect.disconnectKick "BANNED"])
  else
    (s, e0 ++ [Effect.addClient, printStatusUpdate reg])

/-- The SessionServer::userLoggedIn handler (connected to printStatusUpdate). -/
def onUserLoggedIn (s : MultiServer) (reg : Registry) : MultiServer × List Effect :=
  (s, [printStatusUpdate reg])

/-- The SessionServer::sessionEnded handler (connected to tryAutoStop). -/
def onSessionEnded (s : MultiServer) (reg : Registry) : MultiServer × List Effect :=
  tryAutoStop s reg

/-- The SessionServer::userDisconnected lambda handler: print a status
update, then run stop () when already STOPPING, else tryAutoStop (). -/
def onUserDisconnected (s : MultiServer) (reg : Registry) : MultiServer × List Effect :=
  if s.m_state = ServerState.STOPPING then
    let r := stop s reg
    (r.1, printStatusUpdate reg :: r.2)
  else
    let r := tryAutoStop s reg
    (r.1, printStatusUpdate reg :: r.2)

/-- Is this effect the serverStopped signal? -/
def isServerStoppedE (e : Effect) : Bool :=
  match e with
  | Effect.serverStopped => true
  | _ => false

/-- Is this effect a notifyStatus call? -/
def isNotifyE (e : Effect) : Bool :=
  match e with
  | Effect.notifyStatus _ => true
  | _ => false

/-- Is this effect an addClient call? -/
def isAddClientE (e : Effect) : Bool :=
  match e with
  | Effect.addClient => true
  | _ => false

/-- Number of serverStopped emissions in an effect list. -/
def countServerStopped (es : List Effect) : Nat := es.countP isServerStoppedE

/-- Number of notifyStatus calls in an effect list. -/
def countNotify (es : List Effect) : Nat := es.countP isNotifyE

/-- Number of addClient calls in an effect list. -/
def countAddClient (es : List Effect) : Nat := es.countP isAddClientE

/-! ### The recording path resolver (MultiServer::assignRecording) -/

/-- Replace every occurrence of `pat` in `s` by `rep`, scanning left to
right and continuing after each replacement, exactly as QString::replace
does. The fuel argument only makes the recursion structural; it is called
with fuel = length of the string, which is enough because every step
consumes at least one character of the subject. -/
def replaceFuel : Nat → List Char → List Char → List Char → List Char
  | 0, s, _, _ => s
  | Nat.succ fuel, s, pat, rep =>
    match s with
    | [] => []
    | c :: rest =>
      if 0 < pat.length ∧ pat.isPrefixOf s then
        rep ++ replaceFuel fuel (s.drop pat.length) pat rep
      else
        c :: replaceFuel fuel rest pat rep

/-- QString::replace(pat, rep) on the whole string. -/
def replaceAll (s pat rep : String) : String :=
  String.mk (replaceFuel s.data.length s.data pat.data rep.data)

/-- QString::startsWith. -/
def strStartsWith (s p : String) : Bool :=
  p.data.isPrefixOf s.data

/-- QString::mid(1): drop the first character. -/
def strMid1 (s : String) : String :=
  String.mk (s.data.drop 1)

/-- A broken-down local time, the part of QDateTime::currentDateTime()
that the format strings of assignRecording use. -/
structure DateTime where
  year : Nat
  month : Nat
  day : Nat
  hour : Nat
  minute : Nat
  second : Nat
deriving DecidableEq, Repr

/-- Two-digit zero-padded decimal field, as Qt renders MM, dd, HH, mm, ss. -/
def pad2 (n : Nat) : String :=
  if n < 10 then "0" ++ toString n else toString n

/-- Four-digit zero-padded decimal field, as Qt renders yyyy. -/
def pad4 (n : Nat) : String :=
  if n < 10 then "000" ++ toString n
  else if n < 100 then "00" ++ toString n
  else if n < 1000 then "0" ++ toString n
  else toString n

/-- now.toString("yyyy-MM-dd"). -/
def formatDate (now : DateTime) : String :=
  pad4 now.year ++ "-" ++ pad2 now.month ++ "-" ++ pad2 now.day

/-- now.toString("HH.mm.ss"). -/
def formatTime (now : DateTime) : String :=
  pad2 now.hour ++ "." ++ pad2 now.minute ++ "." ++ pad2 now.second

/-- Modelled from the spec: the helper sessionIdString of the shared
server headers is not under src/; section 4.2 describes the %i expansion
as the string form of the session identifier, and scenario B renders
session id 7 as "7". -/
def sessionIdString (id : Nat) : String :=
  toString id

/-- Modelled from the spec: QFileInfo::absoluteFilePath is Qt library
code; section 4.2 says the result is normalized to an absolute path, so a
path that already starts with the separator is kept and a relative one is
resolved against the current directory. -/
def absoluteFilePath (cwd p : String) : String :=
  if strStartsWith p "/" then p else cwd ++ "/" ++ p

/-- The path computation of MultiServer::assignRecording.

`pattern` is getConfigString(RecordingPath), `home` the HOME environment
variable, `targetIsDir` the result of QFileInfo::isDir() on the
home-expanded pattern, `cwd` the current directory used by absolute path
resolution. Returns none when the pattern is empty (no recording). -/
def resolveRecordingPath (pattern home : String) (targetIsDir : Bool)
    (now : DateTime) (sessionId : Nat) (cwd : String) : Option String :=
  if pattern = "" then none
  else
    let f1 := if strStartsWith pattern "~/" then home ++ strMid1 pattern else pattern
    let f2 := if targetIsDir
      then absoluteFilePath cwd (f1 ++ "/" ++ "%d %t session %i.dprec")
      else f1
    let f3 := replaceAll f2 "%d" (formatDate now)
    let f4 := replaceAll f3 "%t" (formatTime now)
    let f5 := replaceAll f4 "%i" (sessionIdString sessionId)
    some (absoluteFilePath cwd f5)

/-- The SessionServer::sessionCreated handler (MultiServer::assignRecording):
its only effect is session->setRecordingFile on the resolved path; the
MultiServer state is untouched. -/
def assignRecording (pattern home : String) (targetIsDir : Bool)
    (now : DateTime) (sessionId : Nat) (cwd : String) : List Effect :=
  match resolveRecordingPath pattern home targetIsDir now sessionId cwd with
  | none => []
  | some p => [Effect.setRecordingFile p]

/-! ### Helper lemmas about stop and tryAutoStop -/

/-- How stop changes m_state, as one equation. -/
lemma stop_m_state (s : MultiServer) (reg : Registry) :
    (stop s reg).1.m_state =
      if s.m_state = ServerState.RUNNING ∨ s.m_state = ServerState.STOPPING then
        (if reg.totalUsers = 0 then ServerState.STOPPED else ServerState.STOPPING)
      else s.m_state := by
  cases hs : s.m_state <;> by_cases hu : reg.totalUsers = 0 <;>
    simp [stop, hs, hu]

/-- stop emits serverStopped exactly when it moves the state to STOPPED. -/
lemma countSS_stop (s : MultiServer) (reg : Registry) :
    countServerStopped (stop s reg).2 =
      if (stop s reg).1.m_state = ServerState.STOPPED ∧ s.m_state ≠ ServerState.STOPPED
      then 1 else 0 := by
  cases hs : s.m_state <;> by_cases hu : reg.totalUsers = 0 <;>
    simp [stop, hs, hu, countServerStopped, isServerStoppedE]

/-- stop never calls notifyStatus. -/
lemma countNotify_stop (s : MultiServer) (reg : Registry) :
    countNotify (stop s reg).2 = 0 := by
  cases hs : s.m_state <;> by_cases hu : reg.totalUsers = 0 <;>
    simp [stop, hs, hu, countNotify, isNotifyE]

/-- How tryAutoStop changes m_state, as one equation. -/
lemma tryAutoStop_m_state (s : MultiServer) (reg : Registry) :
    (tryAutoStop s reg).1.m_state =
      if s.m_state = ServerState.RUNNING ∧ s.m_autoStop = true
          ∧ reg.sessionCount = 0 ∧ reg.totalUsers = 0 then
        ServerState.STOPPED
      else s.m_state := by
  unfold tryAutoStop
  split
  · rename_i h
    rw [stop_m_state]
    simp [h.1, h.2.2.2]
  · simp

/-- tryAutoStop emits serverStopped exactly when it moves the state to STOPPED. -/
lemma countSS_tryAutoStop (s : MultiServer) (reg : Registry) :
    countServerStopped (tryAutoStop s reg).2 =
      if (tryAutoStop s reg).1.m_state = ServerState.STOPPED
          ∧ s.m_state ≠ ServerState.STOPPED
      then 1 else 0 := by
  unfold tryAutoStop
  split
  · rename_i h
    have hcount := countSS_stop s reg
    simp only [countServerStopped, List.countP_cons, isServerStoppedE] at *
    simpa [h.1] using hcount
  · simp [countServerStopped, isServerStoppedE]

/-- tryAutoStop never calls notifyStatus. -/
lemma countNotify_tryAutoStop (s : MultiServer) (reg : Registry) :
    countNotify (tryAutoStop s reg).2 = 0 := by
  unfold tryAutoStop
  split
  · have := countNotify_stop s reg
    simp only [countNotify, List.countP_cons, isNotifyE] at *
    simpa using this
  · simp [countNotify]

/-! ### Claims about single operations -/

/-- A plain-TCP server that has started successfully (used as a concrete
input in witnesses and counterexamples). -/
def runningServer (autoStop : Bool) : MultiServer :=
  { m_state := ServerState.RUNNING
    m_autoStop := autoStop
    m_server := some false
    m_sslCertFile := ""
    m_sslKeyFile := "" }

/-- Claim C1. The claim says a start whose listener construction fails on
an invalid TLS certificate/key pair leaves the server in NOT_STARTED. The
code sets m_state = RUNNING before calling createServer and the
createServer failure path returns without resetting it (unlike the bind
failure path), so the call returns false but the state stays RUNNING with
a null m_server: a second start would violate the Q_ASSERT of start, and
stop would dereference the null listener pointer. This theorem evaluates
the embedded code at that failing input. -/
theorem claim_C1_invalid_cert_leaves_state_running :
    (start (initServer false "cert.pem" "key.pem") false true "" 27750 "0.0.0.0").2.2 = false ∧
    (start (initServer false "cert.pem" "key.pem") false true "" 27750 "0.0.0.0").1.m_state
      = ServerState.RUNNING ∧
    (start (initServer false "cert.pem" "key.pem") false true "" 27750 "0.0.0.0").1.m_server
      = none := by
  decide

/-- Claim C2: a connection whose peer address is banned is never handed to
SessionServer::addClient and is kicked with reason "BANNED". -/
theorem claim_C2_banned_client_never_added (s : MultiServer) (reg : Registry) (peer : String) :
    countAddClient (newClient s reg true peer).2 = 0 ∧
    Effect.disconnectKick "BANNED" ∈ (newClient s reg true peer).2 := by
  simp [newClient, countAddClient, isAddClientE, List.countP_cons]

/-- Witness for claim C2 at a concrete input. -/
theorem claim_C2_witness :
    countAddClient (newClient (initServer false "" "") ⟨3, 1⟩ true "203.0.113.9").2 = 0 ∧
    Effect.disconnectKick "BANNED" ∈ (newClient (initServer false "" "") ⟨3, 1⟩ true "203.0.113.9").2 :=
  claim_C2_banned_client_never_added (initServer false "" "") ⟨3, 1⟩ "203.0.113.9"

/-- Claim C4: tryAutoStop changes the state exactly when the server is
RUNNING, the autoStop flag is set and both counters are zero; it never
fires while a session or user remains. -/
theorem claim_C4_autostop_fires_iff_vacant (s : MultiServer) (reg : Registry) :
    (tryAutoStop s reg).1.m_state ≠ s.m_state ↔
      (s.m_state = ServerState.RUNNING ∧ s.m_autoStop = true
        ∧ reg.sessionCount = 0 ∧ reg.totalUsers = 0) := by
  rw [tryAutoStop_m_state]
  split
  · rename_i h
    simp [h, h.1]
  · rename_i h
    simp [h]

/-- Witness for claim C4: with autoStop set, a vacant running server is
taken out of RUNNING by tryAutoStop. -/
theorem claim_C4_witness :
    (tryAutoStop (runningServer true) ⟨0, 0⟩).1.m_state ≠ (runningServer true).m_state :=
  (claim_C4_autostop_fires_iff_vacant (runningServer true) ⟨0, 0⟩).mpr
    ⟨rfl, rfl, rfl, rfl⟩

/-- Claim C5: when the listener is constructed but the bind fails, start
returns false, logs the OS error string, discards the listener (m_server
back to null) and reverts the state to NOT_STARTED. -/
theorem claim_C5_bind_failure_reverts (s : MultiServer) (isValidCert : Bool)
    (errString : String) (port : Nat) (addr : String)
    (_h : s.m_state = ServerState.NOT_STARTED)
    (hcreate : s.m_sslCertFile = "" ∨ s.m_sslKeyFile = "" ∨ isValidCert = true) :
    (start s isValidCert false errString port addr).2.2 = false ∧
    (start s isValidCert false errString port addr).1.m_state = ServerState.NOT_STARTED ∧
    (start s isValidCert false errString port addr).1.m_server = none ∧
    Effect.logError errString ∈ (start s isValidCert false errString port addr).2.1 := by
  by_cases hts : s.m_sslCertFile ≠ "" ∧ s.m_sslKeyFile ≠ ""
  · have hv : isValidCert = true := by
      rcases hcreate with hc | hc | hc
      · exact absurd hc hts.1
      · exact absurd hc hts.2
      · exact hc
    simp [start, createServer, hts.1, hts.2, hv]
  · simp [start, createServer, hts]

/-- Witness for claim C5 at a concrete input. -/
theorem claim_C5_witness :
    (start (initServer false "" "") true false "address in use" 27750 "0.0.0.0").2.2 = false ∧
    (start (initServer false "" "") true false "address in use" 27750 "0.0.0.0").1.m_state
      = ServerState.NOT_STARTED ∧
    (start (initServer false "" "") true false "address in use" 27750 "0.0.0.0").1.m_server
      = none ∧
    Effect.logError "address in use"
      ∈ (start (initServer false "" "") true false "address in use" 27750 "0.0.0.0").2.1 :=
  claim_C5_bind_failure_reverts (initServer false "" "") true "address in use" 27750 "0.0.0.0"
    rfl (Or.inl rfl)

/-- Claim C6, counterexample: a sessionEnded event (here with two users
still connected and the session count just fallen to zero, on a running
server without autoStop) changes the session count but produces no
notifyStatus call, because sessionEnded is wired only to tryAutoStop. -/
theorem claim_C6_counterexample_session_ended_no_report :
    countNotify (onSessionEnded (runningServer false) ⟨2, 0⟩).2 = 0 := by
  decide

/-- Claim C6 as amended: a status report is emitted after every successful
non-banned connection acceptance, every login and every disconnection,
but the sessionEnded event only runs the auto-stop evaluation and emits
no status report (auto-stop evaluations themselves never report). -/
theorem claim_C6_status_reports :
    (∀ (s : MultiServer) (reg : Registry) (peer : String),
      countNotify (newClient s reg false peer).2 = 1) ∧
    (∀ (s : MultiServer) (reg : Registry), countNotify (onUserLoggedIn s reg).2 = 1) ∧
    (∀ (s : MultiServer) (reg : Registry), countNotify (onUserDisconnected s reg).2 = 1) ∧
    (∀ (s : MultiServer) (reg : Registry), countNotify (onSessionEnded s reg).2 = 0) := by
  refine ⟨?_, ?_, ?_, ?_⟩
  · intro s reg peer
    simp [newClient, countNotify, isNotifyE, printStatusUpdate, List.countP_cons]
  · intro s reg
    simp [onUserLoggedIn, countNotify, isNotifyE, printStatusUpdate, List.countP_cons]
  · intro s reg
    unfold onUserDisconnected
    split
    · have := countNotify_stop s reg
      simp only [countNotify, List.countP_cons, printStatusUpdate, isNotifyE] at *
      simpa using this
    · have := countNotify_tryAutoStop s reg
      simp only [countNotify, List.countP_cons, printStatusUpdate, isNotifyE] at *
      simpa using this
  · intro s reg
    exact countNotify_tryAutoStop s reg

/-- Claim C7, scenario B: the pattern with the home prefix and all three
placeholders resolves to the expected absolute path. -/
theorem claim_C7_recording_path_scenario_B :
    resolveRecordingPath "~/rec/%d %t session %i.dprec" "/home/u" false
      ⟨2024, 3, 5, 14, 7, 2⟩ 7 "/" =
    some "/home/u/rec/2024-03-05 14.07.02 session 7.dprec" := by
  decide

/-- Claim C9: stop on a RUNNING server whose user count is already zero
reaches STOPPED within the same call and emits serverStopped once,
synchronously. -/
theorem claim_C9_stop_vacant_synchronous (s : MultiServer) (reg : Registry)
    (h1 : s.m_state = ServerState.RUNNING) (h2 : reg.totalUsers = 0) :
    (stop s reg).1.m_state = ServerState.STOPPED ∧
    countServerStopped (stop s reg).2 = 1 := by
  constructor
  · rw [stop_m_state]
    simp [h1, h2]
  · rw [countSS_stop, stop_m_state]
    simp [h1, h2]

/-- Witness for claim C9 at a concrete input. -/
theorem claim_C9_witness :
    (stop (runningServer false) ⟨0, 3⟩).1.m_state = ServerState.STOPPED ∧
    countServerStopped (stop (runningServer false) ⟨0, 3⟩).2 = 1 :=
  claim_C9_stop_vacant_synchronous (runningServer false) ⟨0, 3⟩ rfl rfl

/-- Claim C10: stop on a NOT_STARTED server is a complete no-op: state
unchanged and no effect at all (no close, no stopAll, no notification). -/
theorem claim_C10_stop_before_start_noop (s : MultiServer) (reg : Registry)
    (h : s.m_state = ServerState.NOT_STARTED) :
    stop s reg = (s, []) := by
  simp [stop, h]

/-- Witness for claim C10 at a concrete input. -/
theorem claim_C10_witness :
    stop (initServer true "c" "k") ⟨4, 2⟩ = (initServer true "c" "k", []) :=
  claim_C10_stop_before_start_noop (initServer true "c" "k") ⟨4, 2⟩ rfl

/-! ### Traces of operations (for the lifecycle claims C3 and C8) -/

/-- One externally triggered operation on the MultiServer, together with
the snapshot of the external world it runs against. -/
inductive Op where
  | opStart (isValidCert listenOk : Bool) (errString : String) (port : Nat) (addr : String)
  | opStartFd (isValidCert fdOk : Bool)
  | opStop (reg : Registry)
  | opTryAutoStop (reg : Registry)
  | opNewClient (reg : Registry) (banned : Bool) (peer : String)
  | opSessionCreated (pattern home : String) (targetIsDir : Bool)
      (now : DateTime) (sessionId : Nat) (cwd : String)
  | opSessionEnded (reg : Registry)
  | opUserLoggedIn (reg : Registry)
  | opUserDisconnected (reg : Registry)
deriving Repr

/-- Run one operation: new object state and emitted effects. -/
def exec (s : MultiServer) : Op → MultiServer × List Effect
  | Op.opStart v l e p a => ((start s v l e p a).1, (start s v l e p a).2.1)
  | Op.opStartFd v f => ((startFd s v f).1, (startFd s v f).2.1)
  | Op.opStop reg => stop s reg
  | Op.opTryAutoStop reg => tryAutoStop s reg
  | Op.opNewClient reg b peer => newClient s reg b peer
  | Op.opSessionCreated pat home d now sid cwd => (s, assignRecording pat home d now sid cwd)
  | Op.opSessionEnded reg => onSessionEnded s reg
  | Op.opUserLoggedIn reg => onUserLoggedIn s reg
  | Op.opUserDisconnected reg => onUserDisconnected s reg

/-- The Q_ASSERT preconditions of the operations: start and startFd assert
m_state == NOT_STARTED, every other operation is unconditional. -/
def assertOk (s : MultiServer) : Op → Bool
  | Op.opStart _ _ _ _ _ => decide (s.m_state = ServerState.NOT_STARTED)
  | Op.opStartFd _ _ => decide (s.m_state = ServerState.NOT_STARTED)
  | _ => true

/-- Final object state after a list of operations. -/
def run (s : MultiServer) : List Op → MultiServer
  | [] => s
  | op :: ops => run (exec s op).1 ops

/-- All effects emitted along a list of operations. -/
def runEffects (s : MultiServer) : List Op → List Effect
  | [] => []
  | op :: ops => (exec s op).2 ++ runEffects (exec s op).1 ops

/-- Every operation of the trace runs with its Q_ASSERT satisfied. -/
def assertsOk (s : MultiServer) : List Op → Bool
  | [] => true
  | op :: ops => assertOk s op && assertsOk (exec s op).1 ops

/-- Position of a state in the lifecycle order
NOT_STARTED → RUNNING → STOPPING → STOPPED. -/
def stateRank : ServerState → Nat
  | ServerState.NOT_STARTED => 0
  | ServerState.RUNNING => 1
  | ServerState.STOPPING => 2
  | ServerState.STOPPED => 3

/-- countServerStopped distributes over append. -/
lemma countSS_append (l1 l2 : List Effect) :
    countServerStopped (l1 ++ l2) = countServerStopped l1 + countServerStopped l2 :=
  List.countP_append isServerStoppedE l1 l2

/-- start never reaches STOPPED and never emits serverStopped. -/
lemma start_not_stopped (s : MultiServer) (v l : Bool) (e : String) (p : Nat) (a : String) :
    (start s v l e p a).1.m_state ≠ ServerState.STOPPED ∧
    countServerStopped (start s v l e p a).2.1 = 0 := by
  by_cases hts : s.m_sslCertFile ≠ "" ∧ s.m_sslKeyFile ≠ "" <;>
    cases v <;> cases l <;>
      simp [start, createServer, hts, countServerStopped, isServerStoppedE]

/-- startFd never reaches STOPPED and never emits serverStopped. -/
lemma startFd_not_stopped (s : MultiServer) (v f : Bool) :
    (startFd s v f).1.m_state ≠ ServerState.STOPPED ∧
    countServerStopped (startFd s v f).2.1 = 0 := by
  by_cases hts : s.m_sslCertFile ≠ "" ∧ s.m_sslKeyFile ≠ "" <;>
    cases v <;> cases f <;>
      simp [startFd, createServer, hts, countServerStopped, isServerStoppedE]

/-- assignRecording never emits serverStopped. -/
lemma countSS_assignRecording (pat home : String) (d : Bool) (now : DateTime)
    (sid : Nat) (cwd : String) :
    countServerStopped (assignRecording pat home d now sid cwd) = 0 := by
  unfold assignRecording
  cases resolveRecordingPath pat home d now sid cwd <;>
    simp [countServerStopped, isServerStoppedE]

/-- One step emits serverStopped exactly when it moves the state to
STOPPED from a state that was not yet STOPPED. -/
lemma countSS_exec (s : MultiServer) (op : Op) :
    countServerStopped (exec s op).2 =
      if (exec s op).1.m_state = ServerState.STOPPED ∧ s.m_state ≠ ServerState.STOPPED
      then 1 else 0 := by
  cases op with
  | opStart v l e p a =>
    have h := start_not_stopped s v l e p a
    simp [exec, h.1, h.2]
  | opStartFd v f =>
    have h := startFd_not_stopped s v f
    simp [exec, h.1, h.2]
  | opStop reg => simpa [exec] using countSS_stop s reg
  | opTryAutoStop reg => simpa [exec] using countSS_tryAutoStop s reg
  | opNewClient reg b peer =>
    cases b <;>
      simp [exec, newClient, countServerStopped, isServerStoppedE, printStatusUpdate]
  | opSessionCreated pat home d now sid cwd =>
    simp [exec, countSS_assignRecording]
  | opSessionEnded reg => simpa [exec, onSessionEnded] using countSS_tryAutoStop s reg
  | opUserLoggedIn reg =>
    simp [exec, onUserLoggedIn, countServerStopped, isServerStoppedE, printStatusUpdate]
  | opUserDisconnected reg =>
    by_cases hst : s.m_state = ServerState.STOPPING
    · have h := countSS_stop s reg
      simp only [exec, onUserDisconnected, if_pos hst]
      simpa [countServerStopped, printStatusUpdate, isServerStoppedE, List.countP_cons] using h
    · have h := countSS_tryAutoStop s reg
      simp only [exec, onUserDisconnected, if_neg hst]
      simpa [countServerStopped, printStatusUpdate, isServerStoppedE, List.countP_cons] using h

/-- Under the Q_ASSERT preconditions no step can decrease the lifecycle
rank of the state. -/
lemma stateRank_exec (s : MultiServer) (op : Op) (h : assertOk s op = true) :
    stateRank s.m_state ≤ stateRank (exec s op).1.m_state := by
  cases op with
  | opStart v l e p a =>
    have hs : s.m_state = ServerState.NOT_STARTED := by
      simpa [assertOk] using h
    simp [hs, stateRank]
  | opStartFd v f =>
    have hs : s.m_state = ServerState.NOT_STARTED := by
      simpa [assertOk] using h
    simp [hs, stateRank]
  | opStop reg =>
    simp only [exec]
    rw [stop_m_state]
    cases hs : s.m_state <;> by_cases hu : reg.totalUsers = 0 <;> simp [hs, hu, stateRank]
  | opTryAutoStop reg =>
    simp only [exec]
    rw [tryAutoStop_m_state]
    split
    · rename_i hc
      simp [hc.1, stateRank]
    · exact le_refl _
  | opNewClient reg b peer => cases b <;> simp [exec, newClient]
  | opSessionCreated pat home d now sid cwd => simp [exec]
  | opSessionEnded reg =>
    simp only [exec, onSessionEnded]
    rw [tryAutoStop_m_state]
    split
    · rename_i hc
      simp [hc.1, stateRank]
    · exact le_refl _
  | opUserLoggedIn reg => simp [exec, onUserLoggedIn]
  | opUserDisconnected reg =>
    simp only [exec, onUserDisconnected]
    split
    · rename_i hs
      rw [stop_m_state]
      by_cases hu : reg.totalUsers = 0 <;> simp [hs, hu, stateRank]
    · rw [tryAutoStop_m_state]
      split
      · rename_i hc
        simp [hc.1, stateRank]
      · exact le_refl _

/-- Under the Q_ASSERT preconditions the STOPPED state is absorbing. -/
lemma exec_stopped (s : MultiServer) (op : Op) (h : assertOk s op = true)
    (hs : s.m_state = ServerState.STOPPED) :
    (exec s op).1.m_state = ServerState.STOPPED := by
  have h1 := stateRank_exec s op h
  rw [hs] at h1
  cases hst : (exec s op).1.m_state <;>
    first
      | rfl
      | (rw [hst] at h1; simp [stateRank] at h1)

/-- The STOPPED state is absorbing along whole traces. -/
lemma run_stopped (ops : List Op) : ∀ s : MultiServer, assertsOk s ops = true →
    s.m_state = ServerState.STOPPED → (run s ops).m_state = ServerState.STOPPED := by
  induction ops with
  | nil => intro s _ hs; simpa [run] using hs
  | cons op ops ih =>
    intro s h hs
    rw [assertsOk, Bool.and_eq_true] at h
    exact ih (exec s op).1 h.2 (exec_stopped s op h.1 hs)

/-- Along any trace that respects the Q_ASSERT preconditions, the number
of serverStopped emissions is 1 when the trace ends in STOPPED (having
started elsewhere) and 0 otherwise. -/
lemma countSS_run (ops : List Op) : ∀ s : MultiServer, assertsOk s ops = true →
    countServerStopped (runEffects s ops) =
      if (run s ops).m_state = ServerState.STOPPED ∧ s.m_state ≠ ServerState.STOPPED
      then 1 else 0 := by
  induction ops with
  | nil =>
    intro s _
    simp [run, runEffects, countServerStopped]
  | cons op ops ih =>
    intro s h
    rw [assertsOk, Bool.and_eq_true] at h
    rw [runEffects, countSS_append, countSS_exec, ih (exec s op).1 h.2]
    by_cases hs : s.m_state = ServerState.STOPPED
    · have h1 : (exec s op).1.m_state = ServerState.STOPPED := exec_stopped s op h.1 hs
      simp [run, hs, h1]
    · by_cases h1 : (exec s op).1.m_state = ServerState.STOPPED
      · have h2 : (run (exec s op).1 ops).m_state = ServerState.STOPPED :=
          run_stopped ops (exec s op).1 h.2 h1
        simp [run, hs, h1, h2]
      · simp [run, hs, h1]

/-- run distributes over append. -/
lemma run_append (xs ys : List Op) : ∀ s : MultiServer,
    run s (xs ++ ys) = run (run s xs) ys := by
  induction xs with
  | nil => intro s; simp [run]
  | cons op xs ih => intro s; simp [run, ih]

/-- assertsOk distributes over append. -/
lemma assertsOk_append (xs ys : List Op) : ∀ s : MultiServer,
    assertsOk s (xs ++ ys) = (assertsOk s xs && assertsOk (run s xs) ys) := by
  induction xs with
  | nil => intro s; simp [assertsOk, run]
  | cons op xs ih => intro s; simp [assertsOk, run, ih, Bool.and_assoc]

/-- Claim C3: over any lifecycle (any trace of operations from the freshly
constructed object that respects the start assertion), the serverStopped
notification is emitted at most once, and exactly once when the lifecycle
completes, i.e. when the final state is STOPPED; in particular repeated
stop calls while STOPPING or after STOPPED cause no further emission. -/
theorem claim_C3_single_stop_notification (autoStop : Bool) (certFile keyFile : String)
    (ops : List Op)
    (h : assertsOk (initServer autoStop certFile keyFile) ops = true) :
    countServerStopped (runEffects (initServer autoStop certFile keyFile) ops) ≤ 1 ∧
    ((run (initServer autoStop certFile keyFile) ops).m_state = ServerState.STOPPED →
      countServerStopped (runEffects (initServer autoStop certFile keyFile) ops) = 1) := by
  have hcount := countSS_run ops (initServer autoStop certFile keyFile) h
  have hne : (initServer autoStop certFile keyFile).m_state ≠ ServerState.STOPPED := by
    simp [initServer]
  rw [hcount]
  constructor
  · split <;> simp
  · intro hfin
    simp [hfin, hne]

/-- Witness for claim C3: start, then three stop calls; the trace emits
serverStopped exactly once. -/
theorem claim_C3_witness :
    countServerStopped (runEffects (initServer false "" "")
      [Op.opStart true true "" 27750 "0.0.0.0", Op.opStop ⟨0, 0⟩,
       Op.opStop ⟨0, 0⟩, Op.opStop ⟨0, 0⟩]) ≤ 1 ∧
    ((run (initServer false "" "")
      [Op.opStart true true "" 27750 "0.0.0.0", Op.opStop ⟨0, 0⟩,
       Op.opStop ⟨0, 0⟩, Op.opStop ⟨0, 0⟩]).m_state = ServerState.STOPPED →
      countServerStopped (runEffects (initServer false "" "")
        [Op.opStart true true "" 27750 "0.0.0.0", Op.opStop ⟨0, 0⟩,
         Op.opStop ⟨0, 0⟩, Op.opStop ⟨0, 0⟩]) = 1) :=
  claim_C3_single_stop_notification false "" ""
    [Op.opStart true true "" 27750 "0.0.0.0", Op.opStop ⟨0, 0⟩,
     Op.opStop ⟨0, 0⟩, Op.opStop ⟨0, 0⟩] (by decide)

/-- Claim C8: along any trace from the freshly constructed object that
respects the start assertion, each operation moves the state only forward
in the order NOT_STARTED → RUNNING → STOPPING → STOPPED: the state after
one more operation never ranks below the state before it. -/
theorem claim_C8_state_monotone (autoStop : Bool) (certFile keyFile : String)
    (ops : List Op) (op : Op)
    (h : assertsOk (initServer autoStop certFile keyFile) (ops ++ [op]) = true) :
    stateRank (run (initServer autoStop certFile keyFile) ops).m_state ≤
    stateRank (run (initServer autoStop certFile keyFile) (ops ++ [op])).m_state := by
  rw [assertsOk_append] at h
  rw [Bool.and_eq_true] at h
  have hop : assertOk (run (initServer autoStop certFile keyFile) ops) op = true := by
    have := h.2
    rw [assertsOk, Bool.and_eq_true] at this
    exact this.1
  rw [run_append]
  exact stateRank_exec (run (initServer autoStop certFile keyFile) ops) op hop

/-- Witness for claim C8: after a successful start, a stop step does not
move the state backwards. -/
theorem claim_C8_witness :
    stateRank (run (initServer false "" "") [Op.opStart true true "" 27750 "0.0.0.0"]).m_state ≤
    stateRank (run (initServer false "" "")
      ([Op.opStart true true "" 27750 "0.0.0.0"] ++ [Op.opStop ⟨2, 1⟩])).m_state :=
  claim_C8_state_monotone false "" "" [Op.opStart true true "" 27750 "0.0.0.0"]
    (Op.opStop ⟨2, 1⟩) (by decide)

end Drawpile
